import Mathlib

/-!
A shallow embedding of the snarkOS mining-pool `Operator`
(`src/network/src/operator.rs`) and proofs of the specification's claims
about it.

Modelling conventions:
* Machine integers (`u32` heights, `u64` difficulties) are `Nat`, with the
  saturating addition of the source made explicit where the source uses it.
* Opaque foreign values (addresses, nonces, PoSW proofs, records, roots,
  socket addresses, transaction sets, instants) are `Nat` atoms: the core
  only moves them around and compares them.
* External pure collaborators (the PoSW verifier, header/block assembly,
  the storage write) are fields of an `Externals` record, so every theorem
  quantifies over their behaviour.
* The dispatcher is serialized in the source (one consumer drains the
  request queue), so `Operator.update` is a function from a state and a
  request to the next state and an ordered list of emitted `Effect`s.
-/

namespace SnarkOS

/-- `u64::MAX` as a natural number. -/
def U64_MAX : Nat := 2 ^ 64 - 1

/-- `u32::MAX` as a natural number. -/
def U32_MAX : Nat := 2 ^ 32 - 1

/-- `const BASE_SHARE_DIFFICULTY: u64 = u64::MAX / 5;` (operator.rs line 55);
Rust `u64` division truncates, i.e. floor division on these ranges. -/
def BASE_SHARE_DIFFICULTY : Nat := U64_MAX / 5

/-- `u32` saturating successor, as in
`latest_block_height().saturating_add(1)` (operator.rs line 120). -/
def saturatingAdd1 (h : Nat) : Nat := min (h + 1) U32_MAX

/-- The fields of `snarkvm`'s `BlockTemplate` that `Operator` reads:
`block_height()`, `previous_block_hash()`, `previous_ledger_root()`,
`coinbase_record()`, `transactions()`, `transactions().transactions_root()`
and `to_header_root()`. Derived accessors are stored as fields since the
core treats them as pure attributes of the template. -/
structure BlockTemplate where
  block_height : Nat
  previous_block_hash : Nat
  previous_ledger_root : Nat
  coinbase_record : Nat
  transactions : Nat
  transactions_root : Nat
  header_root : Nat
  deriving DecidableEq, Repr

/-- Modelled from the spec: `snarkvm`'s `BlockHeaderMetadata::new(&template)`
(the header metadata used at operator.rs lines 295 and 319) is outside this
repository; the spec fixes the one attribute the claims use, that the
assembled block's height is the template's `block_height`. -/
structure BlockHeaderMetadata where
  height : Nat
  deriving DecidableEq, Repr

/-- Modelled from the spec: metadata construction carries the template's
block height into the header. -/
def BlockHeaderMetadata.new (t : BlockTemplate) : BlockHeaderMetadata :=
  ⟨t.block_height⟩

/-- Modelled from the spec: a `snarkvm` `BlockHeader` as assembled by
`BlockHeader::from(previous_ledger_root, transactions_root, metadata, nonce,
proof)`; on success the header holds exactly the supplied parts. -/
structure BlockHeader where
  previous_ledger_root : Nat
  transactions_root : Nat
  metadata : BlockHeaderMetadata
  nonce : Nat
  proof : Nat
  deriving DecidableEq, Repr

/-- Modelled from the spec: a `snarkvm` `Block` as assembled by
`Block::from(previous_block_hash, header, transactions)`; on success the
block holds exactly the supplied parts. -/
structure Block where
  previous_block_hash : Nat
  header : BlockHeader
  transactions : Nat
  deriving DecidableEq, Repr

/-- `block.height()` reads the header metadata's height. -/
def Block.height (b : Block) : Nat := b.header.metadata.height

/-- The external pure collaborators of the operator, out of scope of the
core: the PoSW verifier `N::posw().verify(height, difficulty, inputs,
proof)`, the fallibility of `BlockHeader::from` and `Block::from`
(failure when the proof does not meet network difficulty), the success or
storage failure of `OperatorState::increment_share`, and the node's
configured `local_ip`. -/
structure Externals where
  posw_verify : Nat → Nat → Nat × Nat → Nat → Bool
  header_ok : BlockHeader → Bool
  block_ok : Block → Bool
  increment_ok : Nat → Nat → Nat → Bool
  local_ip : Nat

/-- `enum OperatorRequest` (operator.rs lines 45-52). -/
inductive OperatorRequest where
  /-- `PoolRegister := (peer_ip, prover_address)` -/
  | poolRegister (peer_ip : Nat) (address : Nat)
  /-- `PoolResponse := (peer_ip, prover_address, nonce, proof)` -/
  | poolResponse (peer_ip : Nat) (prover : Nat) (nonce : Nat) (proof : Nat)
  /-- `PoolBlock := (nonce, proof)` -/
  | poolBlock (nonce : Nat) (proof : Nat)
  deriving DecidableEq, Repr

/-- The observable actions `Operator::update` and the refresher perform:
log lines that gate control flow, outbound messages, share-ledger writes
and the coinbase-cache invalidation, in program order. -/
inductive Effect where
  /-- `warn!("[...] No current block template exists")` -/
  | warnNoTemplate
  /-- `warn!("[PoolResponse] Peer {} sent a duplicate share", peer_ip)` -/
  | warnDuplicate (peer_ip : Nat)
  /-- `Message::PoolRequest(share_difficulty, template)` sent to `peer_ip` -/
  | poolRequestSend (peer_ip : Nat) (share_difficulty : Nat) (t : BlockTemplate)
  /-- `warn!("[PoolResponse] PoSW proof verification failed")` -/
  | warnProofFailed
  /-- `error!("Prover should have existing info")` -/
  | errorNoProverInfo
  /-- `increment_share` returned `Ok`: a credited share -/
  | creditShare (height : Nat) (coinbase_record : Nat) (prover : Nat)
  /-- `increment_share` returned `Err`: logged at error -/
  | shareError (height : Nat) (coinbase_record : Nat) (prover : Nat)
  /-- `ledger().reader().invalidate_coinbase_cache()` -/
  | invalidateCoinbaseCache
  /-- `LedgerRequest::UnconfirmedBlock(local_ip, block)` sent to the ledger router -/
  | unconfirmedBlock (local_ip : Nat) (b : Block)
  /-- `Message::NewBlockTemplate(template)` broadcast to pool peers -/
  | newBlockTemplate (t : BlockTemplate)
  deriving DecidableEq, Repr

/-- The mutable state of `Operator` (operator.rs lines 62-75): the current
block template, the prover registry `address → (last_submitted,
share_difficulty)` as an association list, the known-nonce set for the
current round as a list, and the persisted shares of `OperatorState` as a
list of credited `(height, coinbase_record, prover)` entries. -/
structure OperatorState where
  block_template : Option BlockTemplate
  provers : List (Nat × Nat × Nat)
  known_nonces : List Nat
  shares : List (Nat × Nat × Nat)
  deriving DecidableEq, Repr

/-- The state at `Operator::open`: no template, no provers, no nonces, an
empty share store. -/
def initialState : OperatorState :=
  { block_template := none, provers := [], known_nonces := [], shares := [] }

/-- `provers.get(&address)` on the association list. -/
def lookupProver (ps : List (Nat × Nat × Nat)) (address : Nat) : Option (Nat × Nat) :=
  match ps with
  | [] => none
  | (a, info) :: rest => if a = address then some info else lookupProver rest address

/-- `provers.insert(address, (now, difficulty))` for an absent key. -/
def insertProver (ps : List (Nat × Nat × Nat)) (address now difficulty : Nat) :
    List (Nat × Nat × Nat) :=
  (address, now, difficulty) :: ps

/-- `provers.get_mut(&prover)` followed by `prover.0 = Instant::now()`:
update the last-submitted instant of the entry for `address`, keeping its
share difficulty. -/
def touchProver : List (Nat × Nat × Nat) → Nat → Nat → List (Nat × Nat × Nat)
  | [], _, _ => []
  | (a, i, d) :: rest, address, now =>
    if a = address then (a, now, d) :: touchProver rest address now
    else (a, i, d) :: touchProver rest address now

/-- `provers.entry(address).or_insert((Instant::now(), BASE_SHARE_DIFFICULTY)).1`
(operator.rs lines 218-224): ensure the entry exists and return the stored
share difficulty together with the updated map. -/
def ensureProver (ps : List (Nat × Nat × Nat)) (address now : Nat) :
    List (Nat × Nat × Nat) × Nat :=
  match lookupProver ps address with
  | some (_, d) => (ps, d)
  | none => (insertProver ps address now BASE_SHARE_DIFFICULTY, BASE_SHARE_DIFFICULTY)

/-- The share difficulty a `PoolResponse` uses for `prover` (operator.rs
lines 248-257): the stored one when present, else `BASE_SHARE_DIFFICULTY`
(which is then also stored). -/
def ensuredDifficulty (ps : List (Nat × Nat × Nat)) (address : Nat) : Nat :=
  match lookupProver ps address with
  | some (_, d) => d
  | none => BASE_SHARE_DIFFICULTY

/-- The header `BlockHeader::from` is asked to build from the snapshotted
template and the submitted nonce and proof (operator.rs lines 292-298). -/
def mkHeader (t : BlockTemplate) (nonce proof : Nat) : BlockHeader :=
  ⟨t.previous_ledger_root, t.transactions_root, BlockHeaderMetadata.new t, nonce, proof⟩

/-- The block `Block::from` is asked to build (operator.rs line 299). -/
def mkBlock (t : BlockTemplate) (nonce proof : Nat) : Block :=
  ⟨t.previous_block_hash, mkHeader t nonce proof, t.transactions⟩

/-- Steps 7-8 of a `PoolResponse`, also the body of `PoolBlock`
(operator.rs lines 289-307 and 313-331): attempt header then block
assembly; on success invalidate the coinbase cache and send
`UnconfirmedBlock(local_ip, block)` to the ledger router. Assembly
failures are silent. -/
def tryMakeBlock (ext : Externals) (t : BlockTemplate) (nonce proof : Nat) :
    List Effect :=
  if ext.header_ok (mkHeader t nonce proof) then
    if ext.block_ok (mkBlock t nonce proof) then
      [Effect.invalidateCoinbaseCache,
       Effect.unconfirmedBlock ext.local_ip (mkBlock t nonce proof)]
    else []
  else []

/-- `Operator::update` (operator.rs lines 213-337), processing one request
to completion: the next state and the ordered effects. `now` stands for
the `Instant::now()` readings of this request. -/
def update (ext : Externals) (now : Nat) (s : OperatorState) :
    OperatorRequest → OperatorState × List Effect
  | OperatorRequest.poolRegister peer_ip address =>
    match s.block_template with
    | none => (s, [Effect.warnNoTemplate])
    | some block_template =>
      let ed := ensureProver s.provers address now
      ({ s with provers := ed.1 },
       [Effect.poolRequestSend peer_ip ed.2 block_template])
  | OperatorRequest.poolResponse peer_ip prover nonce proof =>
    match s.block_template with
    | none => (s, [Effect.warnNoTemplate])
    | some block_template =>
      if nonce ∈ s.known_nonces then
        (s, [Effect.warnDuplicate peer_ip])
      else
        let s1 := { s with known_nonces := nonce :: s.known_nonces }
        let s2 :=
          match lookupProver s1.provers prover with
          | some _ => s1
          | none =>
            { s1 with provers := insertProver s1.provers prover now BASE_SHARE_DIFFICULTY }
        let share_difficulty := ensuredDifficulty s.provers prover
        let block_height := block_template.block_height
        if ext.posw_verify block_height share_difficulty
            (block_template.header_root, nonce) proof = false then
          (s2, [Effect.warnProofFailed])
        else
          match lookupProver s2.provers prover with
          | none => (s2, [Effect.errorNoProverInfo])
          | some _ =>
            let s3 := { s2 with provers := touchProver s2.provers prover now }
            let coinbase_record := block_template.coinbase_record
            let sc :=
              if ext.increment_ok block_height coinbase_record prover then
                ({ s3 with shares := (block_height, coinbase_record, prover) :: s3.shares },
                 [Effect.creditShare block_height coinbase_record prover])
              else
                (s3, [Effect.shareError block_height coinbase_record prover])
            (sc.1, sc.2 ++ tryMakeBlock ext block_template nonce proof)
  | OperatorRequest.poolBlock nonce proof =>
    match s.block_template with
    | none => (s, [Effect.warnNoTemplate])
    | some block_template =>
      (s, tryMakeBlock ext block_template nonce proof)

/-- Process a queue of requests in receipt order (the single consumer of
the bounded operator channel). -/
def updateList (ext : Externals) (now : Nat) (s : OperatorState) :
    List OperatorRequest → OperatorState × List Effect
  | [] => (s, [])
  | r :: rs =>
    let se := update ext now s r
    let se' := updateList ext now se.1 rs
    (se'.1, se.2 ++ se'.2)

/-- A successful template rotation by the refresher (operator.rs lines
147-161): store the new template, clear the known nonces, broadcast
`NewBlockTemplate`. -/
def rotate (s : OperatorState) (t : BlockTemplate) : OperatorState × List Effect :=
  ({ s with block_template := some t, known_nonces := [] },
   [Effect.newBlockTemplate t])

/-- The staleness test of the refresher (operator.rs lines 118-123):
stale when no template is cached, or when
`latest_block_height().saturating_add(1) != template.block_height()`. -/
def isBlockTemplateStale (template : Option BlockTemplate) (latest_height : Nat) : Bool :=
  match template with
  | some t => saturatingAdd1 latest_height != t.block_height
  | none => true

/-- One refresher tick (operator.rs lines 117-166): when the template is
stale, attempt construction (`build` is the result of
`get_block_template`, `none` on failure); on success rotate and broadcast,
on failure only log; when not stale, do nothing. -/
def refresherTick (s : OperatorState) (latest_height : Nat)
    (build : Option BlockTemplate) : OperatorState × List Effect :=
  if isBlockTemplateStale s.block_template latest_height then
    match build with
    | some t => rotate s t
    | none => (s, [])
  else
    (s, [])

/-- One step of the operator node: either the dispatcher processes a
request, or the refresher rotates in a freshly built template. -/
inductive Step where
  | req (now : Nat) (r : OperatorRequest)
  | tick (latest_height : Nat) (build : Option BlockTemplate)
  deriving Repr

/-- Run a sequence of steps from a state. -/
def run (ext : Externals) (s : OperatorState) : List Step → OperatorState
  | [] => s
  | Step.req now r :: rest => run ext (update ext now s r).1 rest
  | Step.tick latest build :: rest => run ext (refresherTick s latest build).1 rest

/-! ### The two-lock structure of rotation, for the atomicity claim

The source guards `block_template` and `known_nonces` by two separate
`RwLock`s. A rotation is two lock acquisitions in sequence
(operator.rs lines 149 and 151): write the template, then clear the
nonces. A `PoolResponse` snapshot is likewise two acquisitions
(operator.rs lines 236 and 238): read (clone) the template, then read the
nonce set. Each acquisition is atomic; nothing is held across them. The
interleavings of one rotation with one snapshot are therefore the
shuffles of the two ordered pairs of actions below. -/

/-- First rotation step: `*operator.block_template.write().await = Some(t)`. -/
def setTemplate (s : OperatorState) (t : BlockTemplate) : OperatorState :=
  { s with block_template := some t }

/-- Second rotation step: `operator.known_nonces.write().await.clear()`. -/
def clearNonces (s : OperatorState) : OperatorState :=
  { s with known_nonces := [] }

/-- The `(template, nonce-set)` pairs a snapshot concurrent with one
rotation to `t'` can observe, one per interleaving of the snapshot's two
reads (template first, then nonces) with the rotation's two writes
(template first, then nonces), each side in program order. -/
def snapshotOutcomes (s : OperatorState) (t' : BlockTemplate) :
    List (Option BlockTemplate × List Nat) :=
  let s1 := setTemplate s t'
  let s2 := clearNonces s1
  [ (s.block_template, s.known_nonces),
    (s.block_template, s1.known_nonces),
    (s.block_template, s2.known_nonces),
    (s1.block_template, s1.known_nonces),
    (s1.block_template, s2.known_nonces),
    (s2.block_template, s2.known_nonces) ]

/-! ### Helper lemmas about one `update` step -/

/-- Every effect of block assembly is the cache invalidation or the
`UnconfirmedBlock` send of the assembled block. -/
lemma mem_tryMakeBlock {ext : Externals} {t : BlockTemplate} {nonce proof : Nat}
    {e : Effect} (h : e ∈ tryMakeBlock ext t nonce proof) :
    e = Effect.invalidateCoinbaseCache ∨
      e = Effect.unconfirmedBlock ext.local_ip (mkBlock t nonce proof) := by
  unfold tryMakeBlock at h
  split at h
  · split at h
    · simpa using h
    · cases h
  · cases h

/-- Block assembly credits no share. -/
lemma creditShare_not_mem_tryMakeBlock {ext : Externals} {t : BlockTemplate}
    {nonce proof h c a : Nat} :
    Effect.creditShare h c a ∉ tryMakeBlock ext t nonce proof := by
  intro hmem
  rcases mem_tryMakeBlock hmem with h' | h' <;> cases h'

/-- Block assembly emits no duplicate warning. -/
lemma warnDuplicate_not_mem_tryMakeBlock {ext : Externals} {t : BlockTemplate}
    {nonce proof p : Nat} :
    Effect.warnDuplicate p ∉ tryMakeBlock ext t nonce proof := by
  intro hmem
  rcases mem_tryMakeBlock hmem with h' | h' <;> cases h'

/-- `Operator::update` never writes the block template: only the refresher
rotates it. -/
lemma update_block_template (ext : Externals) (now : Nat) (s : OperatorState)
    (r : OperatorRequest) :
    ((update ext now s r).1).block_template = s.block_template := by
  cases r <;> simp only [update] <;>
    (repeat' split) <;> simp

/-- A nonce in the known set stays known across any request. -/
lemma update_nonces_mono {n : Nat} (ext : Externals) (now : Nat)
    (s : OperatorState) (r : OperatorRequest) (h : n ∈ s.known_nonces) :
    n ∈ ((update ext now s r).1).known_nonces := by
  cases r <;> simp only [update] <;>
    (repeat' split) <;> simp_all

/-- The duplicate gate (operator.rs lines 238-242): a `PoolResponse`
carrying an already-known nonce changes nothing and only logs. -/
lemma update_duplicate {s : OperatorState} {t : BlockTemplate} {p a n pf : Nat}
    (ext : Externals) (now : Nat)
    (ht : s.block_template = some t) (hn : n ∈ s.known_nonces) :
    update ext now s (OperatorRequest.poolResponse p a n pf) =
      (s, [Effect.warnDuplicate p]) := by
  simp [update, ht, hn]

/-- A processed `PoolResponse` leaves its nonce in the known set
(operator.rs line 245; in the duplicate branch it was already there). -/
lemma update_records_nonce {s : OperatorState} {t : BlockTemplate}
    {p a n pf : Nat} (ext : Externals) (now : Nat)
    (ht : s.block_template = some t) :
    n ∈ ((update ext now s (OperatorRequest.poolResponse p a n pf)).1).known_nonces := by
  by_cases hn : n ∈ s.known_nonces
  · rw [update_duplicate ext now ht hn]
    exact hn
  · simp only [update, ht]
    (repeat' split) <;> simp_all

/-- A drained queue never writes the block template. -/
lemma updateList_block_template (ext : Externals) (now : Nat) (s : OperatorState)
    (rs : List OperatorRequest) :
    ((updateList ext now s rs).1).block_template = s.block_template := by
  induction rs generalizing s with
  | nil => rfl
  | cons r rest ih =>
    simpa [updateList, update_block_template] using ih (update ext now s r).1

/-- A known nonce stays known across a drained queue. -/
lemma updateList_nonces_mono {n : Nat} (ext : Externals) (now : Nat)
    (s : OperatorState) (rs : List OperatorRequest) (h : n ∈ s.known_nonces) :
    n ∈ ((updateList ext now s rs).1).known_nonces := by
  induction rs generalizing s with
  | nil => exact h
  | cons r rest ih =>
    exact ih (update ext now s r).1 (update_nonces_mono ext now s r h)

/-- In the fresh-nonce path, the prover-difficulty lookup after the
ensure step (operator.rs lines 248-257) always succeeds, and returns the
difficulty stored for the prover at the time of the request. -/
lemma lookup_after_ensure (ps : List (Nat × Nat × Nat)) (a now : Nat) :
    ∃ i, lookupProver
        (match lookupProver ps a with
         | some _ => ps
         | none => insertProver ps a now BASE_SHARE_DIFFICULTY) a =
      some (i, ensuredDifficulty ps a) := by
  cases hl : lookupProver ps a with
  | some info =>
    exact ⟨info.1, by simp [hl, ensuredDifficulty]⟩
  | none =>
    exact ⟨now, by simp [hl, ensuredDifficulty, insertProver, lookupProver]⟩

/-- Full evaluation of a `PoolResponse` that passes the duplicate gate and
the PoSW verification (operator.rs lines 236-307): the effects are the
share credit or the logged storage error, then the block-assembly effects. -/
lemma update_success_effects {s : OperatorState} {t : BlockTemplate}
    {p a n pf : Nat} (ext : Externals) (now : Nat)
    (ht : s.block_template = some t) (hn : n ∉ s.known_nonces)
    (hv : ext.posw_verify t.block_height (ensuredDifficulty s.provers a)
            (t.header_root, n) pf = true) :
    (update ext now s (OperatorRequest.poolResponse p a n pf)).2 =
      (if ext.increment_ok t.block_height t.coinbase_record a
       then [Effect.creditShare t.block_height t.coinbase_record a]
       else [Effect.shareError t.block_height t.coinbase_record a]) ++
        tryMakeBlock ext t n pf := by
  cases hl : lookupProver s.provers a with
  | some info =>
    simp [update, ht, hn, hv, hl]
    split <;> simp
  | none =>
    simp [update, ht, hn, hv, hl, insertProver, lookupProver]
    split <;> simp

/-- Companion state evaluation for the same path: the share store gains
the credited entry exactly when `increment_share` succeeded, and the
post-state registry stores the difficulty the verification used. -/
lemma update_success_state {s : OperatorState} {t : BlockTemplate}
    {p a n pf : Nat} (ext : Externals) (now : Nat)
    (ht : s.block_template = some t) (hn : n ∉ s.known_nonces)
    (hv : ext.posw_verify t.block_height (ensuredDifficulty s.provers a)
            (t.header_root, n) pf = true) :
    ((update ext now s (OperatorRequest.poolResponse p a n pf)).1).shares =
      (if ext.increment_ok t.block_height t.coinbase_record a
       then [(t.block_height, t.coinbase_record, a)]
       else []) ++ s.shares := by
  cases hl : lookupProver s.provers a with
  | some info =>
    simp [update, ht, hn, hv, hl]
    split <;> simp
  | none =>
    simp [update, ht, hn, hv, hl, insertProver, lookupProver]
    split <;> simp

/-- Touching a prover's last-submitted instant rewrites only the instant:
the looked-up difficulty is unchanged. -/
lemma lookupProver_touch (ps : List (Nat × Nat × Nat)) (a now : Nat) :
    lookupProver (touchProver ps a now) a =
      (lookupProver ps a).map fun id => (now, id.2) := by
  induction ps with
  | nil => rfl
  | cons p rest ih =>
    obtain ⟨x, j, e⟩ := p
    by_cases hx : x = a
    · subst hx
      simp [touchProver, lookupProver]
    · simpa [touchProver, lookupProver, hx] using ih

/-- After a verified `PoolResponse`, the registry stores for the prover the
instant of this request and exactly the difficulty the verification used. -/
lemma update_success_difficulty {s : OperatorState} {t : BlockTemplate}
    {p a n pf : Nat} (ext : Externals) (now : Nat)
    (ht : s.block_template = some t) (hn : n ∉ s.known_nonces)
    (hv : ext.posw_verify t.block_height (ensuredDifficulty s.provers a)
            (t.header_root, n) pf = true) :
    lookupProver ((update ext now s (OperatorRequest.poolResponse p a n pf)).1).provers a =
      some (now, ensuredDifficulty s.provers a) := by
  cases hl : lookupProver s.provers a with
  | some info =>
    have hv' : ext.posw_verify t.block_height info.2 (t.header_root, n) pf = true := by
      simpa [ensuredDifficulty, hl] using hv
    simp [update, ht, hn, hl, ensuredDifficulty, hv']
    (repeat' split) <;> simp_all [lookupProver_touch, hl]
  | none =>
    have hv' : ext.posw_verify t.block_height BASE_SHARE_DIFFICULTY
        (t.header_root, n) pf = true := by
      simpa [ensuredDifficulty, hl] using hv
    simp [update, ht, hn, hl, ensuredDifficulty, hv', insertProver]
    (repeat' split) <;> simp_all [touchProver, lookupProver]

/-! ### The prover-registry difficulty invariant -/

/-- Every difficulty stored in the registry is `BASE_SHARE_DIFFICULTY`:
the core has no retargeting mutation (marked TODO in the source,
operator.rs line 111). -/
def proversBase (ps : List (Nat × Nat × Nat)) : Prop :=
  ∀ a i d, lookupProver ps a = some (i, d) → d = BASE_SHARE_DIFFICULTY

lemma proversBase_nil : proversBase [] := by
  intro a i d h
  cases h

lemma proversBase_insert {ps : List (Nat × Nat × Nat)} {b now : Nat}
    (h : proversBase ps) :
    proversBase (insertProver ps b now BASE_SHARE_DIFFICULTY) := by
  intro a i d hl
  by_cases hb : b = a
  · simp [insertProver, lookupProver, hb] at hl
    exact hl.2.symm
  · simp [insertProver, lookupProver, hb] at hl
    exact h a i d hl

/-- Touching prover `b` leaves every other prover's entry untouched. -/
lemma lookupProver_touch_ne (ps : List (Nat × Nat × Nat)) {a b : Nat}
    (now : Nat) (hab : a ≠ b) :
    lookupProver (touchProver ps b now) a = lookupProver ps a := by
  induction ps with
  | nil => rfl
  | cons p rest ih =>
    obtain ⟨x, j, e⟩ := p
    by_cases hxa : x = a
    · subst hxa
      simp [touchProver, lookupProver, hab]
    · by_cases hxb : x = b
      · subst hxb
        simpa [touchProver, lookupProver, hxa] using ih
      · simpa [touchProver, lookupProver, hxa, hxb] using ih

lemma proversBase_touch {ps : List (Nat × Nat × Nat)} {b now : Nat}
    (h : proversBase ps) :
    proversBase (touchProver ps b now) := by
  intro a i d hl
  by_cases hab : a = b
  · subst hab
    rw [lookupProver_touch] at hl
    cases hl' : lookupProver ps a with
    | none => simp [hl'] at hl
    | some info =>
      rw [hl'] at hl
      simp at hl
      rw [← hl.2]
      exact h a info.1 info.2 (by rw [hl'])
  · rw [lookupProver_touch_ne ps now hab] at hl
    exact h a i d hl

lemma proversBase_ensure {ps : List (Nat × Nat × Nat)} {a now : Nat}
    (h : proversBase ps) :
    proversBase (ensureProver ps a now).1 := by
  unfold ensureProver
  cases hl : lookupProver ps a with
  | some info => exact h
  | none => exact proversBase_insert h

/-- `Operator::update` inserts prover entries only at
`BASE_SHARE_DIFFICULTY` and never changes a stored difficulty. -/
lemma update_proversBase (ext : Externals) (now : Nat) (s : OperatorState)
    (r : OperatorRequest) (h : proversBase s.provers) :
    proversBase ((update ext now s r).1).provers := by
  cases r with
  | poolRegister p a =>
    cases ht : s.block_template with
    | none => simpa [update, ht] using h
    | some t => simpa [update, ht] using proversBase_ensure h
  | poolResponse p a n pf =>
    cases ht : s.block_template with
    | none => simpa [update, ht] using h
    | some t =>
      by_cases hn : n ∈ s.known_nonces
      · simpa [update_duplicate ext now ht hn] using h
      · cases hl : lookupProver s.provers a with
        | some info =>
          simp only [update, ht]
          rw [if_neg hn]
          simp only [hl]
          (repeat' split) <;>
            first
              | exact h
              | exact proversBase_touch h
        | none =>
          simp only [update, ht]
          rw [if_neg hn]
          simp only [hl]
          (repeat' split) <;>
            first
              | exact proversBase_insert h
              | exact proversBase_touch (proversBase_insert h)
  | poolBlock n pf =>
    cases ht : s.block_template with
    | none => simpa [update, ht] using h
    | some t => simpa [update, ht] using h

/-- The refresher never writes the prover registry or the share store. -/
lemma refresherTick_provers (s : OperatorState) (latest : Nat)
    (build : Option BlockTemplate) :
    ((refresherTick s latest build).1).provers = s.provers ∧
      ((refresherTick s latest build).1).shares = s.shares := by
  unfold refresherTick rotate
  (repeat' split) <;> simp

/-- The registry of any state reachable from startup stores only
`BASE_SHARE_DIFFICULTY`. -/
lemma run_proversBase (ext : Externals) (steps : List Step) :
    proversBase (run ext initialState steps).provers := by
  have key : ∀ (steps : List Step) (s : OperatorState), proversBase s.provers →
      proversBase (run ext s steps).provers := by
    intro steps
    induction steps with
    | nil => exact fun s h => h
    | cons st rest ih =>
      intro s h
      cases st with
      | req now r => exact ih _ (update_proversBase ext now s r h)
      | tick latest build =>
        apply ih
        rw [(refresherTick_provers s latest build).1]
        exact h
  exact key steps initialState proversBase_nil

/-! ### Remaining evaluation lemmas -/

/-- `PoolBlock` evaluated (operator.rs lines 312-335): the state is
untouched; the effects are the missing-template warning or the
block-assembly effects. -/
lemma update_poolBlock (ext : Externals) (now : Nat) (s : OperatorState)
    (nonce proof : Nat) :
    update ext now s (OperatorRequest.poolBlock nonce proof) =
      (s, match s.block_template with
          | none => [Effect.warnNoTemplate]
          | some t => tryMakeBlock ext t nonce proof) := by
  cases ht : s.block_template <;> simp [update, ht]

/-- A `PoolResponse` whose nonce is not yet known is never rejected as a
duplicate: no duplicate warning is emitted on any of its paths. -/
lemma warnDuplicate_not_mem_update (ext : Externals) (now : Nat)
    (s : OperatorState) {peer prover n pf q : Nat} (hn : n ∉ s.known_nonces) :
    Effect.warnDuplicate q ∉
      (update ext now s (OperatorRequest.poolResponse peer prover n pf)).2 := by
  cases ht : s.block_template with
  | none => simp [update, ht]
  | some t =>
    simp only [update, ht]
    rw [if_neg hn]
    (repeat' split) <;>
      simp_all [warnDuplicate_not_mem_tryMakeBlock]


/-- A `PoolResponse` that passes the duplicate gate but fails PoSW
verification (operator.rs lines 259-269) is dropped with only the
verification warning: no share is credited. -/
lemma update_verify_failed {s : OperatorState} {t : BlockTemplate}
    {p a n pf : Nat} (ext : Externals) (now : Nat)
    (ht : s.block_template = some t) (hn : n ∉ s.known_nonces)
    (hvf : ext.posw_verify t.block_height (ensuredDifficulty s.provers a)
             (t.header_root, n) pf = false) :
    (update ext now s (OperatorRequest.poolResponse p a n pf)).2 =
      [Effect.warnProofFailed] := by
  simp only [update, ht]
  rw [if_neg hn]
  simp [hvf]

/-! ### Concrete fixtures for witnesses and counterexamples -/

/-- An environment where verification, assembly and the storage write all
succeed. -/
def extAllOk : Externals :=
  { posw_verify := fun _ _ _ _ => true
    header_ok := fun _ => true
    block_ok := fun _ => true
    increment_ok := fun _ _ _ => true
    local_ip := 9 }

/-- An environment whose PoSW verifier rejects every proof. -/
def extNoVerify : Externals :=
  { posw_verify := fun _ _ _ _ => false
    header_ok := fun _ => true
    block_ok := fun _ => true
    increment_ok := fun _ _ _ => true
    local_ip := 9 }

/-- An environment whose share-storage write always fails. -/
def extNoStore : Externals :=
  { posw_verify := fun _ _ _ _ => true
    header_ok := fun _ => true
    block_ok := fun _ => true
    increment_ok := fun _ _ _ => false
    local_ip := 9 }

/-- A block template at height 100. -/
def T1 : BlockTemplate := ⟨100, 11, 12, 13, 14, 15, 16⟩

/-- A block template at height 101. -/
def T2 : BlockTemplate := ⟨101, 21, 22, 23, 24, 25, 26⟩

/-- A block template at the maximal `u32` height. -/
def Tmax : BlockTemplate := ⟨U32_MAX, 0, 0, 0, 0, 0, 0⟩

/-- An operator state holding template `T1` with no known nonces. -/
def sT1 : OperatorState :=
  { block_template := some T1, provers := [], known_nonces := [], shares := [] }

/-- An operator state holding template `T1` with nonce 5 already known. -/
def s100 : OperatorState :=
  { block_template := some T1, provers := [], known_nonces := [5], shares := [] }

/-! ### The claims -/

/-- C1: under a single template rotation (no intervening rotate), once a
`PoolResponse` carrying nonce `n` has been processed, every later
`PoolResponse` carrying `n` — whatever requests come between — is dropped
with only the duplicate warning and no state change at all: no share is
credited and the prover registry is not mutated. -/
theorem C1_duplicate_nonce_drop (ext : Externals) (now0 now1 now2 : Nat)
    (s : OperatorState) (t : BlockTemplate) (p0 a0 pf0 n : Nat)
    (rs : List OperatorRequest) (p a pf : Nat)
    (ht : s.block_template = some t) :
    update ext now2
        (updateList ext now1
          (update ext now0 s (OperatorRequest.poolResponse p0 a0 n pf0)).1 rs).1
        (OperatorRequest.poolResponse p a n pf) =
      ((updateList ext now1
          (update ext now0 s (OperatorRequest.poolResponse p0 a0 n pf0)).1 rs).1,
       [Effect.warnDuplicate p]) := by
  have ht1 : ((update ext now0 s (OperatorRequest.poolResponse p0 a0 n pf0)).1).block_template =
      some t := by
    rw [update_block_template, ht]
  have ht2 : ((updateList ext now1
      (update ext now0 s (OperatorRequest.poolResponse p0 a0 n pf0)).1 rs).1).block_template =
      some t := by
    rw [updateList_block_template]
    exact ht1
  have hn1 := @update_records_nonce s t p0 a0 n pf0 ext now0 ht
  have hn2 := updateList_nonces_mono ext now1 _ rs hn1
  exact update_duplicate ext now2 ht2 hn2

/-- Witness for C1 at a concrete input: with template `T1` cached, a second
submission of nonce 5 is dropped as a duplicate. -/
theorem C1_witness :
    sT1.block_template = some T1 ∧
      update extAllOk 2
          (updateList extAllOk 1
            (update extAllOk 0 sT1 (OperatorRequest.poolResponse 1 2 5 7)).1 []).1
          (OperatorRequest.poolResponse 3 4 5 8) =
        ((updateList extAllOk 1
            (update extAllOk 0 sT1 (OperatorRequest.poolResponse 1 2 5 7)).1 []).1,
         [Effect.warnDuplicate 3]) :=
  ⟨rfl, C1_duplicate_nonce_drop extAllOk 0 1 2 sT1 T1 1 2 7 5 [] 3 4 8 rfl⟩


/-- C2 as stated is false of the source's two-lock rotation: with template
`T1` cached and nonce 5 known, a snapshot concurrent with a rotation to
`T2` can observe the pair `(T1, ∅)` — the template read before the
rotation's template write, the nonce set read after its clear — which is
neither the pre-rotation pair `(T1, {5})` nor the post-rotation pair
`(T2, ∅)`. -/
theorem C2_counterexample :
    ¬ (∀ out ∈ snapshotOutcomes s100 T2,
        out = (some T1, [5]) ∨ out = (some T2, [])) := by
  decide

/-- C2 amended: rotation writes the template and clears the nonce set as
two separate atomic steps, so a concurrent snapshot observes one of four
pairs: the pre-rotation pair, the post-rotation pair, the pre-rotation
template with the cleared nonce set, or the post-rotation template with
the pre-rotation nonce set. A snapshot whose two reads do not straddle a
rotation step observes the pre- or post-rotation pair. -/
theorem C2_rotation_two_steps (s : OperatorState) (t' : BlockTemplate)
    (out : Option BlockTemplate × List Nat)
    (h : out ∈ snapshotOutcomes s t') :
    out = (s.block_template, s.known_nonces) ∨
      out = (some t', []) ∨
      out = (s.block_template, []) ∨
      out = (some t', s.known_nonces) := by
  simp only [snapshotOutcomes, setTemplate, clearNonces, List.mem_cons,
    List.not_mem_nil, or_false] at h
  rcases h with h | h | h | h | h | h <;> simp [h]

/-- Witness for the amended C2: the cross-mixed pair `(T1, ∅)` is an
observable outcome and falls in one of the four classes. -/
theorem C2_witness :
    ((some T1, ([] : List Nat)) ∈ snapshotOutcomes s100 T2) ∧
      ((some T1, ([] : List Nat)) = (s100.block_template, s100.known_nonces) ∨
        (some T1, ([] : List Nat)) = (some T2, []) ∨
        (some T1, ([] : List Nat)) = (s100.block_template, []) ∨
        (some T1, ([] : List Nat)) = (some T2, s100.known_nonces)) :=
  ⟨by decide, C2_rotation_two_steps s100 T2 (some T1, []) (by decide)⟩

/-- C3: every credited share passed the PoSW verifier: if processing a
`PoolResponse` emits a share credit, then the credit is keyed by the
snapshotted template's height and coinbase record and the prover's
address, the verifier accepted `(height, d, [header_root, nonce], proof)`
where `d` is the share difficulty stored for the prover at the time of
the request, and the registry still stores `d` for the prover
afterwards. -/
theorem C3_credited_share_verified (ext : Externals) (now : Nat)
    (s : OperatorState) (t : BlockTemplate) (p a n pf h c a' : Nat)
    (ht : s.block_template = some t)
    (hcred : Effect.creditShare h c a' ∈
      (update ext now s (OperatorRequest.poolResponse p a n pf)).2) :
    h = t.block_height ∧ c = t.coinbase_record ∧ a' = a ∧
      ext.posw_verify t.block_height (ensuredDifficulty s.provers a)
        (t.header_root, n) pf = true ∧
      lookupProver
          ((update ext now s (OperatorRequest.poolResponse p a n pf)).1).provers a =
        some (now, ensuredDifficulty s.provers a) := by
  by_cases hn : n ∈ s.known_nonces
  · rw [update_duplicate ext now ht hn] at hcred
    simp at hcred
  · by_cases hv : ext.posw_verify t.block_height (ensuredDifficulty s.provers a)
        (t.header_root, n) pf = true
    · rw [update_success_effects ext now ht hn hv] at hcred
      rcases List.mem_append.mp hcred with hmem | hmem
      · have heq : (Effect.creditShare h c a' =
            Effect.creditShare t.block_height t.coinbase_record a) := by
          by_cases hinc : ext.increment_ok t.block_height t.coinbase_record a = true
          · simpa [hinc] using hmem
          · rw [if_neg (by simpa using hinc)] at hmem
            simp at hmem
        cases heq
        exact ⟨rfl, rfl, rfl, hv, update_success_difficulty ext now ht hn hv⟩
      · exact absurd hmem creditShare_not_mem_tryMakeBlock
    · have hvf : ext.posw_verify t.block_height (ensuredDifficulty s.provers a)
          (t.header_root, n) pf = false := by
        cases hb : ext.posw_verify t.block_height (ensuredDifficulty s.provers a)
            (t.header_root, n) pf
        · rfl
        · exact absurd hb hv
      rw [update_verify_failed ext now ht hn hvf] at hcred
      simp at hcred

/-- Witness for C3 at a concrete input: the always-accepting environment
credits a share for the submission of nonce 5 by prover 2 under `T1`. -/
theorem C3_witness :
    sT1.block_template = some T1 ∧
      (Effect.creditShare 100 13 2 ∈
        (update extAllOk 0 sT1 (OperatorRequest.poolResponse 1 2 5 7)).2) ∧
      (100 = T1.block_height ∧ 13 = T1.coinbase_record ∧ 2 = 2 ∧
        extAllOk.posw_verify T1.block_height (ensuredDifficulty sT1.provers 2)
          (T1.header_root, 5) 7 = true ∧
        lookupProver
            ((update extAllOk 0 sT1 (OperatorRequest.poolResponse 1 2 5 7)).1).provers 2 =
          some (0, ensuredDifficulty sT1.provers 2)) :=
  ⟨rfl, by decide,
    C3_credited_share_verified extAllOk 0 sT1 T1 1 2 5 7 100 13 2 rfl (by decide)⟩

/-- C4: a `PoolResponse` that passes the duplicate gate, verifies at the
prover's share difficulty, and whose `(nonce, proof)` passes header and
block construction, emits effects ending in exactly the coinbase-cache
invalidation followed by exactly one
`UnconfirmedBlock(local_ip, block)` whose height is the snapshotted
template's `block_height`; the only preceding effect is the share credit
or the logged storage error. -/
theorem C4_network_block_emission (ext : Externals) (now : Nat)
    (s : OperatorState) (t : BlockTemplate) (p a n pf : Nat)
    (ht : s.block_template = some t)
    (hn : n ∉ s.known_nonces)
    (hv : ext.posw_verify t.block_height (ensuredDifficulty s.provers a)
            (t.header_root, n) pf = true)
    (hh : ext.header_ok (mkHeader t n pf) = true)
    (hb : ext.block_ok (mkBlock t n pf) = true) :
    (update ext now s (OperatorRequest.poolResponse p a n pf)).2 =
        (if ext.increment_ok t.block_height t.coinbase_record a
         then [Effect.creditShare t.block_height t.coinbase_record a]
         else [Effect.shareError t.block_height t.coinbase_record a]) ++
          [Effect.invalidateCoinbaseCache,
           Effect.unconfirmedBlock ext.local_ip (mkBlock t n pf)] ∧
      ((update ext now s (OperatorRequest.poolResponse p a n pf)).2.filter
          fun e => match e with
            | Effect.unconfirmedBlock _ _ => true
            | _ => false) =
        [Effect.unconfirmedBlock ext.local_ip (mkBlock t n pf)] ∧
      (mkBlock t n pf).height = t.block_height := by
  have heff : (update ext now s (OperatorRequest.poolResponse p a n pf)).2 =
      (if ext.increment_ok t.block_height t.coinbase_record a
       then [Effect.creditShare t.block_height t.coinbase_record a]
       else [Effect.shareError t.block_height t.coinbase_record a]) ++
        [Effect.invalidateCoinbaseCache,
         Effect.unconfirmedBlock ext.local_ip (mkBlock t n pf)] := by
    rw [update_success_effects ext now ht hn hv]
    simp [tryMakeBlock, hh, hb]
  refine ⟨heff, ?_, rfl⟩
  rw [heff]
  split <;> rfl

/-- Witness for C4 at a concrete input: the submission of nonce 5 under
`T1` in the always-accepting environment emits the invalidation and one
`UnconfirmedBlock` at height 100. -/
theorem C4_witness :
    sT1.block_template = some T1 ∧ (5 ∉ sT1.known_nonces) ∧
      extAllOk.posw_verify T1.block_height (ensuredDifficulty sT1.provers 2)
        (T1.header_root, 5) 7 = true ∧
      extAllOk.header_ok (mkHeader T1 5 7) = true ∧
      extAllOk.block_ok (mkBlock T1 5 7) = true ∧
      ((update extAllOk 0 sT1 (OperatorRequest.poolResponse 1 2 5 7)).2 =
          (if extAllOk.increment_ok T1.block_height T1.coinbase_record 2
           then [Effect.creditShare T1.block_height T1.coinbase_record 2]
           else [Effect.shareError T1.block_height T1.coinbase_record 2]) ++
            [Effect.invalidateCoinbaseCache,
             Effect.unconfirmedBlock extAllOk.local_ip (mkBlock T1 5 7)] ∧
        ((update extAllOk 0 sT1 (OperatorRequest.poolResponse 1 2 5 7)).2.filter
            fun e => match e with
              | Effect.unconfirmedBlock _ _ => true
              | _ => false) =
          [Effect.unconfirmedBlock extAllOk.local_ip (mkBlock T1 5 7)] ∧
        (mkBlock T1 5 7).height = T1.block_height) :=
  ⟨rfl, by decide, rfl, rfl, rfl,
    C4_network_block_emission extAllOk 0 sT1 T1 1 2 5 7 rfl (by decide) rfl rfl rfl⟩


/-- C5: rotating to a new template clears the known-nonce set, so any
nonce — in particular one recorded under the previous template — is
eligible again: a `PoolResponse` carrying it right after the rotation is
not rejected as a duplicate on any path. -/
theorem C5_rotation_restores_eligibility (ext : Externals) (now : Nat)
    (s : OperatorState) (t' : BlockTemplate) (n peer prover pf q : Nat) :
    n ∉ ((rotate s t').1).known_nonces ∧
      Effect.warnDuplicate q ∉
        (update ext now (rotate s t').1
          (OperatorRequest.poolResponse peer prover n pf)).2 := by
  have hn : n ∉ ((rotate s t').1).known_nonces := by simp [rotate]
  exact ⟨hn, warnDuplicate_not_mem_update ext now _ hn⟩

/-- Witness for C5 at a concrete input: nonce 5, known under `T1` in
`s100`, is eligible again after the rotation to `T2`. -/
theorem C5_witness :
    (5 : Nat) ∉ ((rotate s100 T2).1).known_nonces ∧
      Effect.warnDuplicate 3 ∉
        (update extAllOk 0 (rotate s100 T2).1
          (OperatorRequest.poolResponse 3 4 5 8)).2 :=
  C5_rotation_restores_eligibility extAllOk 0 s100 T2 5 3 4 8 3

/-- C6: `BASE_SHARE_DIFFICULTY` is `floor(u64::MAX / 5)` =
3689348814741910323, and in every state reachable from startup — the
registry is only ever written by `PoolRegister` and `PoolResponse`, and no
retargeting mutation exists — every registered prover's stored share
difficulty is `BASE_SHARE_DIFFICULTY`. -/
theorem C6_base_share_difficulty (ext : Externals) (steps : List Step)
    (a i d : Nat)
    (h : lookupProver (run ext initialState steps).provers a = some (i, d)) :
    BASE_SHARE_DIFFICULTY = 3689348814741910323 ∧ d = BASE_SHARE_DIFFICULTY :=
  ⟨by decide, run_proversBase ext steps a i d h⟩

/-- The step sequence of the C6 witness: install a template, then register
prover 42. -/
def stepsC6 : List Step :=
  [Step.tick 0 (some T1), Step.req 3 (OperatorRequest.poolRegister 1 42)]

/-- Witness for C6 at a concrete input: after registration, prover 42 is
stored at the base share difficulty. -/
theorem C6_witness :
    lookupProver (run extAllOk initialState stepsC6).provers 42 =
        some (3, 3689348814741910323) ∧
      (BASE_SHARE_DIFFICULTY = 3689348814741910323 ∧
        (3689348814741910323 : Nat) = BASE_SHARE_DIFFICULTY) :=
  ⟨by decide,
    C6_base_share_difficulty extAllOk stepsC6 42 3 3689348814741910323 (by decide)⟩

/-- C7: a storage error from `increment_share` does not abort the
`PoolResponse`: the share store is left unchanged and the effects are the
logged error followed by the block-assembly effects, so a proof that also
meets network difficulty still emits the cache invalidation and the
`UnconfirmedBlock`. -/
theorem C7_storage_error_continues (ext : Externals) (now : Nat)
    (s : OperatorState) (t : BlockTemplate) (p a n pf : Nat)
    (ht : s.block_template = some t)
    (hn : n ∉ s.known_nonces)
    (hv : ext.posw_verify t.block_height (ensuredDifficulty s.provers a)
            (t.header_root, n) pf = true)
    (hfail : ext.increment_ok t.block_height t.coinbase_record a = false)
    (hh : ext.header_ok (mkHeader t n pf) = true)
    (hb : ext.block_ok (mkBlock t n pf) = true) :
    (update ext now s (OperatorRequest.poolResponse p a n pf)).2 =
        [Effect.shareError t.block_height t.coinbase_record a,
         Effect.invalidateCoinbaseCache,
         Effect.unconfirmedBlock ext.local_ip (mkBlock t n pf)] ∧
      ((update ext now s (OperatorRequest.poolResponse p a n pf)).1).shares =
        s.shares := by
  constructor
  · rw [update_success_effects ext now ht hn hv]
    simp [hfail, tryMakeBlock, hh, hb]
  · rw [update_success_state ext now ht hn hv]
    simp [hfail]

/-- Witness for C7 at a concrete input: with the failing storage
environment, the submission of nonce 5 under `T1` still emits the
`UnconfirmedBlock`. -/
theorem C7_witness :
    sT1.block_template = some T1 ∧ (5 ∉ sT1.known_nonces) ∧
      extNoStore.posw_verify T1.block_height (ensuredDifficulty sT1.provers 2)
        (T1.header_root, 5) 7 = true ∧
      extNoStore.increment_ok T1.block_height T1.coinbase_record 2 = false ∧
      extNoStore.header_ok (mkHeader T1 5 7) = true ∧
      extNoStore.block_ok (mkBlock T1 5 7) = true ∧
      ((update extNoStore 0 sT1 (OperatorRequest.poolResponse 1 2 5 7)).2 =
          [Effect.shareError T1.block_height T1.coinbase_record 2,
           Effect.invalidateCoinbaseCache,
           Effect.unconfirmedBlock extNoStore.local_ip (mkBlock T1 5 7)] ∧
        ((update extNoStore 0 sT1 (OperatorRequest.poolResponse 1 2 5 7)).1).shares =
          sT1.shares) :=
  ⟨rfl, by decide, rfl, rfl, rfl, rfl,
    C7_storage_error_continues extNoStore 0 sT1 T1 1 2 5 7 rfl (by decide) rfl rfl rfl rfl⟩

/-- C8 as stated is false at the top of the `u32` range: the source
compares against `latest_block_height().saturating_add(1)`, so with the
cached template at height `u32::MAX` and the ledger tip at `u32::MAX` the
template is judged NOT stale although its height differs from
`latest_height + 1`. -/
theorem C8_counterexample :
    isBlockTemplateStale (some Tmax) U32_MAX = false ∧
      Tmax.block_height ≠ U32_MAX + 1 := by
  constructor
  · decide
  · decide

/-- C8 amended: on a tick where a template is present and
`latest_height + 1` equals its height, the template is judged not stale,
so no rotation occurs, the nonce set is untouched and nothing is emitted;
and the template is stale exactly when it is absent or its height differs
from the `u32`-saturating successor of the latest height. -/
theorem C8_refresher_idempotent (s : OperatorState) (latest : Nat)
    (build : Option BlockTemplate) (t : BlockTemplate)
    (ht : s.block_template = some t) (hbound : t.block_height ≤ U32_MAX)
    (heq : latest + 1 = t.block_height) :
    refresherTick s latest build = (s, []) ∧
      (∀ (tmpl : Option BlockTemplate) (l : Nat),
        isBlockTemplateStale tmpl l = true ↔
          tmpl = none ∨
            ∃ t', tmpl = some t' ∧ saturatingAdd1 l ≠ t'.block_height) := by
  have hsat : saturatingAdd1 latest = t.block_height := by
    rw [saturatingAdd1, heq]
    exact Nat.min_eq_left hbound
  constructor
  · simp [refresherTick, isBlockTemplateStale, ht, hsat]
  · intro tmpl l
    cases tmpl <;> simp [isBlockTemplateStale]

/-- Witness for the amended C8 at a concrete input: with `T1` (height 100)
cached and the tip at 99, the tick changes nothing. -/
theorem C8_witness :
    sT1.block_template = some T1 ∧ T1.block_height ≤ U32_MAX ∧
      99 + 1 = T1.block_height ∧
      (refresherTick sT1 99 none = (sT1, []) ∧
        (∀ (tmpl : Option BlockTemplate) (l : Nat),
          isBlockTemplateStale tmpl l = true ↔
            tmpl = none ∨
              ∃ t', tmpl = some t' ∧ saturatingAdd1 l ≠ t'.block_height)) :=
  ⟨rfl, by decide, by decide,
    C8_refresher_idempotent sT1 99 none T1 rfl (by decide) (by decide)⟩

/-- C9: a `PoolBlock` request never changes any operator state — template,
registry, nonce set and share store are all untouched — and its only
effects are the missing-template warning, the coinbase-cache invalidation
and the `UnconfirmedBlock` send; with no template it only logs the
warning. -/
theorem C9_poolBlock_frame (ext : Externals) (now : Nat) (s : OperatorState)
    (nonce proof : Nat) :
    (update ext now s (OperatorRequest.poolBlock nonce proof)).1 = s ∧
      (∀ e ∈ (update ext now s (OperatorRequest.poolBlock nonce proof)).2,
        e = Effect.warnNoTemplate ∨ e = Effect.invalidateCoinbaseCache ∨
          ∃ b, e = Effect.unconfirmedBlock ext.local_ip b) ∧
      (s.block_template = none →
        update ext now s (OperatorRequest.poolBlock nonce proof) =
          (s, [Effect.warnNoTemplate])) := by
  refine ⟨?_, ?_, ?_⟩
  · rw [update_poolBlock]
  · intro e he
    rw [update_poolBlock] at he
    cases htm : s.block_template with
    | none =>
      rw [htm] at he
      simp at he
      simp [he]
    | some t =>
      rw [htm] at he
      have he' : e ∈ tryMakeBlock ext t nonce proof := he
      rcases mem_tryMakeBlock he' with h1 | h1
      · exact Or.inr (Or.inl h1)
      · exact Or.inr (Or.inr ⟨_, h1⟩)
  · intro h0
    rw [update_poolBlock, h0]

/-- Witness for C9 at a concrete input: with no template, `PoolBlock` only
warns and changes nothing. -/
theorem C9_witness :
    update extAllOk 0 initialState (OperatorRequest.poolBlock 1 2) =
      (initialState, [Effect.warnNoTemplate]) :=
  (C9_poolBlock_frame extAllOk 0 initialState 1 2).2.2 rfl

/-- C10: the nonce is inserted into the known set before proof
verification, so a nonce first submitted with a proof the verifier
rejects is consumed for the rest of the rotation: the submission itself
only logs the verification failure (no credit), and any later
`PoolResponse` carrying the same nonce — even with a different proof — is
dropped as a duplicate with no state change. -/
theorem C10_invalid_proof_consumes_nonce (ext : Externals)
    (now0 now1 now2 : Nat) (s : OperatorState) (t : BlockTemplate)
    (p0 a0 pf0 n : Nat) (rs : List OperatorRequest) (p a pf : Nat)
    (ht : s.block_template = some t)
    (hn : n ∉ s.known_nonces)
    (hvf : ext.posw_verify t.block_height (ensuredDifficulty s.provers a0)
             (t.header_root, n) pf0 = false) :
    (update ext now0 s (OperatorRequest.poolResponse p0 a0 n pf0)).2 =
        [Effect.warnProofFailed] ∧
      update ext now2
          (updateList ext now1
            (update ext now0 s (OperatorRequest.poolResponse p0 a0 n pf0)).1 rs).1
          (OperatorRequest.poolResponse p a n pf) =
        ((updateList ext now1
            (update ext now0 s (OperatorRequest.poolResponse p0 a0 n pf0)).1 rs).1,
         [Effect.warnDuplicate p]) := by
  refine ⟨update_verify_failed ext now0 ht hn hvf, ?_⟩
  have ht1 : ((update ext now0 s (OperatorRequest.poolResponse p0 a0 n pf0)).1).block_template =
      some t := by
    rw [update_block_template, ht]
  have ht2 : ((updateList ext now1
      (update ext now0 s (OperatorRequest.poolResponse p0 a0 n pf0)).1 rs).1).block_template =
      some t := by
    rw [updateList_block_template]
    exact ht1
  have hn1 := @update_records_nonce s t p0 a0 n pf0 ext now0 ht
  have hn2 := updateList_nonces_mono ext now1 _ rs hn1
  exact update_duplicate ext now2 ht2 hn2

/-- Witness for C10 at a concrete input: under the rejecting verifier,
nonce 5 is consumed by a failed submission and a valid-looking retry is
dropped as a duplicate. -/
theorem C10_witness :
    sT1.block_template = some T1 ∧ (5 ∉ sT1.known_nonces) ∧
      extNoVerify.posw_verify T1.block_height (ensuredDifficulty sT1.provers 2)
        (T1.header_root, 5) 7 = false ∧
      ((update extNoVerify 0 sT1 (OperatorRequest.poolResponse 1 2 5 7)).2 =
          [Effect.warnProofFailed] ∧
        update extNoVerify 2
            (updateList extNoVerify 1
              (update extNoVerify 0 sT1 (OperatorRequest.poolResponse 1 2 5 7)).1 []).1
            (OperatorRequest.poolResponse 3 4 5 8) =
          ((updateList extNoVerify 1
              (update extNoVerify 0 sT1 (OperatorRequest.poolResponse 1 2 5 7)).1 []).1,
           [Effect.warnDuplicate 3])) :=
  ⟨rfl, by decide, rfl,
    C10_invalid_proof_consumes_nonce extNoVerify 0 1 2 sT1 T1 1 2 7 5 [] 3 4 8
      rfl (by decide) rfl⟩

end SnarkOS
